import Mathlib

/-!
Verification development for the meetman repository: two Python scripts,
`generate_icons.py` and `create_placeholder_icon.py`, that produce iOS app
icon assets.  The data model (images as pixel rasters, a filesystem as an
association list of path/image pairs, fonts as bounding-box and coverage
functions) and the two scripts' control flow are embedded below; the external
imaging library calls (resize, text drawing) are modelled where noted.
-/

namespace Meetman

/-- RGB color as a (red, green, blue) triple of natural-number channels. -/
abbrev RGB := Nat × Nat × Nat

/-- The color `'#007AFF'` ("iOS blue") used as the placeholder background. -/
def iosBlue : RGB := (0, 122, 255)

/-- The color `'white'` used as the text fill. -/
def white : RGB := (255, 255, 255)

/-- An in-memory raster image: a width, a height, and a pixel function.
Only the values of `pix` at coordinates inside the `width × height`
rectangle are meaningful. -/
structure Image where
  width : Nat
  height : Nat
  pix : Nat → Nat → RGB

/-- An image whose every pixel is the one color `c`, of square edge `n`
(models `Image.new('RGB', (n, n), color=c)`). -/
def constImage (n : Nat) (c : RGB) : Image :=
  ⟨n, n, fun _ _ => c⟩

/-- Componentwise division of an RGB triple by a natural number. -/
def divRGB (c : RGB) (n : Nat) : RGB :=
  (c.1 / n, c.2.1 / n, c.2.2 / n)

/-- Sum of the pixels of `img` over the half-open box
`[x0, x1) × [y0, y1)`, summed componentwise. -/
def boxSum (img : Image) (x0 x1 y0 y1 : Nat) : RGB :=
  (Finset.range (x1 - x0)).sum fun dx =>
    (Finset.range (y1 - y0)).sum fun dy => img.pix (x0 + dx) (y0 + dy)

/-- Modelled from the spec: the pixel at `(i, j)` of the output of the
external library resample (`img.resize((s, s), Image.Resampling.LANCZOS)`,
whose implementation is not part of this repository).  The spec describes
the filter as a deterministic "area-averaging / sinc-like filter": each
output pixel is a normalized average, over a source box determined only by
the source dimensions and the target size, of the source pixels in that
box.  The normalization (weights summing to one) is what the claims about
determinism and flat-color preservation rest on. -/
def resizePixel (img : Image) (s i j : Nat) : RGB :=
  let x0 := i * img.width / s
  let x1 := (i + 1) * img.width / s
  let y0 := j * img.height / s
  let y1 := (j + 1) * img.height / s
  divRGB (boxSum img x0 x1 y0 y1) ((x1 - x0) * (y1 - y0))

/-- Modelled from the spec: `img.resize((s, s), Image.Resampling.LANCZOS)`
returns a fresh `s × s` image whose pixels are resampled from `img`
(see `resizePixel`); the source image is not mutated. -/
def resize (img : Image) (s : Nat) : Image :=
  ⟨s, s, resizePixel img s⟩

/-- Two images are pixel-identical rasters: same dimensions and the same
color at every in-bounds coordinate. -/
def PixelIdentical (a b : Image) : Prop :=
  a.width = b.width ∧ a.height = b.height ∧
    ∀ x y, x < a.width → y < a.height → a.pix x y = b.pix x y

/-- Average color of an image: the componentwise sum of all its pixels
divided by the pixel count. -/
def averageColor (img : Image) : RGB :=
  divRGB (boxSum img 0 img.width 0 img.height) (img.width * img.height)

/-- The filesystem visible to the scripts: an association list of
(path, image) pairs.  A write prepends, so a later write to the same path
shadows an earlier one, and `readFile` sees the most recent write. -/
abbrev FileSystem := List (String × Image)

/-- Read the image stored at path `p` (the most recent write wins). -/
def readFile : FileSystem → String → Option Image
  | [], _ => none
  | (q, img) :: rest, p => if q = p then some img else readFile rest p

/-- Write `img` at path `p`, overwriting any previous file there
(overwriting is modelled by shadowing: the new pair is prepended and
`readFile` returns the first match). -/
def writeFile (fs : FileSystem) (p : String) (img : Image) : FileSystem :=
  (p, img) :: fs

/-- Models `os.path.join(a, b)` for the relative second components used in
the scripts: `a ++ "/" ++ b`. -/
def joinPath (a b : String) : String :=
  a ++ "/" ++ b

/-- The resize loop shared by both scripts (their filesystem effect):
for each manifest entry `(filename, size)` in order, write
`resize img size` at `join(dir, filename)`.

    for filename, size in icons.items():
        output_path = os.path.join(output_dir, filename)
        resized = img.resize((size, size), Image.Resampling.LANCZOS)
        resized.save(output_path, "PNG")
-/
def resizeLoop (dir : String) (img : Image) : List (String × Nat) → FileSystem → FileSystem
  | [], fs => fs
  | (n, s) :: rest, fs =>
      resizeLoop dir img rest (writeFile fs (joinPath dir n) (resize img s))

/-- The per-entry progress lines printed by the resize loop
(`print(f"Created {filename} ({size}x{size})")`). -/
def resizeLog : List (String × Nat) → List String
  | [] => []
  | (n, s) :: rest =>
      ("Created " ++ n ++ " (" ++ toString s ++ "x" ++ toString s ++ ")") :: resizeLog rest

/-- A font, as the scripts observe one: a function giving the bounding box
`(x0, y0, x1, y1)` of a text drawn at origin (`draw.textbbox((0, 0), ...)`),
and a glyph-coverage mask giving which offsets from the drawing origin
receive ink (`draw.text`).  Both are library behavior, modelled abstractly. -/
structure Font where
  bboxFn : String → Int × Int × Int × Int
  mask : String → Int → Int → Bool

/-- The font environment a run of `create_placeholder_icon.py` sees:
whether loading `"/System/Library/Fonts/Helvetica.ttc"` at point size 400
succeeds (and which font it yields), and the built-in font returned by
`ImageFont.load_default()`. -/
structure FontEnv where
  helvetica : Option Font
  defaultFont : Font

/-- The script's font selection:

    try:
        font = ImageFont.truetype("/System/Library/Fonts/Helvetica.ttc", 400)
    except:
        font = ImageFont.load_default()

Any failure to load the named system font is caught and the default
built-in font is substituted; nothing is printed in either branch. -/
def selectFont (env : FontEnv) : Font :=
  match env.helvetica with
  | some f => f
  | none => env.defaultFont

/-- Modelled from the spec: `draw.text((x, y), text, fill, font)` (external
library).  Each pixel covered by the font's glyph mask, offset by the
drawing position, takes the fill color; every other pixel keeps its old
color; dimensions are unchanged. -/
def drawText (img : Image) (posX posY : Int) (text : String) (fill : RGB) (font : Font) : Image :=
  ⟨img.width, img.height, fun px py =>
    if font.mask text ((px : Int) - posX) ((py : Int) - posY) then fill
    else img.pix px py⟩

end Meetman

namespace Meetman.GenerateIcons

/-- Path of the source icon read by `generate_icons.py`:
`os.path.join(base_dir, "MeetingCopilot/Assets.xcassets/AppIcon.appiconset/icon_1024x1024.png")`.
`base_dir` (the directory of the script file) is a run-time parameter. -/
def source_icon (base_dir : String) : String :=
  joinPath base_dir "MeetingCopilot/Assets.xcassets/AppIcon.appiconset/icon_1024x1024.png"

/-- Output directory of `generate_icons.py`:
`os.path.join(base_dir, "MeetingCopilot/Assets.xcassets/AppIcon.appiconset")`. -/
def output_dir (base_dir : String) : String :=
  joinPath base_dir "MeetingCopilot/Assets.xcassets/AppIcon.appiconset"

/-- The icon manifest hardcoded in `generate_icons.py`, in source order
(Python dicts iterate in insertion order). -/
def icons : List (String × Nat) :=
  [("icon_20x20@2x.png", 40),
   ("icon_20x20@3x.png", 60),
   ("icon_29x29@2x.png", 58),
   ("icon_29x29@3x.png", 87),
   ("icon_40x40@2x.png", 80),
   ("icon_40x40@3x.png", 120),
   ("icon_60x60@2x.png", 120),
   ("icon_60x60@3x.png", 180),
   ("icon_20x20.png", 20),
   ("icon_20x20@2x-ipad.png", 40),
   ("icon_29x29.png", 29),
   ("icon_29x29@2x-ipad.png", 58),
   ("icon_40x40.png", 40),
   ("icon_40x40@2x-ipad.png", 80),
   ("icon_76x76.png", 76),
   ("icon_76x76@2x.png", 152),
   ("icon_83.5x83.5@2x.png", 167)]

/-- The whole run of `generate_icons.py` on a filesystem: open the source
icon (`Image.open(source_icon)`); if it cannot be opened the exception
propagates unhandled and nothing is written; otherwise run the resize loop
over the manifest and return the new filesystem together with the console
log. -/
def run (base_dir : String) (fs : FileSystem) : Except Unit (FileSystem × List String) :=
  match readFile fs (source_icon base_dir) with
  | none => Except.error ()
  | some img =>
      Except.ok (resizeLoop (output_dir base_dir) img icons fs,
        ("Loading source icon: " ++ source_icon base_dir) ::
          resizeLog icons ++ ["\nAll icons generated successfully!"])

/-- The filesystem after a run of `generate_icons.py`: on success the loop's
writes applied, on the unhandled open failure the filesystem untouched. -/
def finalFS (base_dir : String) (fs : FileSystem) : FileSystem :=
  match run base_dir fs with
  | Except.ok out => out.1
  | Except.error _ => fs

end Meetman.GenerateIcons

namespace Meetman.CreatePlaceholderIcon

/-- Output directory of `create_placeholder_icon.py` (a fixed relative path). -/
def output_dir : String := "MeetingCopilot/Assets.xcassets/AppIcon.appiconset"

/-- The fixed edge length: `size = 1024`. -/
def size : Nat := 1024

/-- The freshly created canvas, before any text is drawn:
`img = Image.new('RGB', (size, size), color='#007AFF')`. -/
def img : Image := constImage size iosBlue

/-- The fixed label: `text = "MC"`. -/
def text : String := "MC"

/-- Width of the measured text bounding box `(x0, y0, x1, y1)`:
`text_width = bbox[2] - bbox[0]`. -/
def text_width (bbox : Int × Int × Int × Int) : Int :=
  bbox.2.2.1 - bbox.1

/-- Height of the measured text bounding box:
`text_height = bbox[3] - bbox[1]`. -/
def text_height (bbox : Int × Int × Int × Int) : Int :=
  bbox.2.2.2 - bbox.2.1

/-- Horizontal drawing position, with Python's floor division `//`:
`x = (size - text_width) // 2 - bbox[0]`. -/
def x (bbox : Int × Int × Int × Int) : Int :=
  Int.fdiv ((size : Int) - text_width bbox) 2 - bbox.1

/-- Vertical drawing position:
`y = (size - text_height) // 2 - bbox[1]`. -/
def y (bbox : Int × Int × Int × Int) : Int :=
  Int.fdiv ((size : Int) - text_height bbox) 2 - bbox.2.1

/-- The measured bounding box of the run:
`bbox = draw.textbbox((0, 0), text, font=font)`. -/
def bbox (env : FontEnv) : Int × Int × Int × Int :=
  (selectFont env).bboxFn text

/-- The placeholder image after the text is drawn:
`draw.text((x, y), text, fill='white', font=font)` applied to the blue
canvas. -/
def placeholderImage (env : FontEnv) : Image :=
  drawText img (x (bbox env)) (y (bbox env)) text white (selectFont env)

/-- The icon manifest hardcoded in `create_placeholder_icon.py`, in source
order. -/
def icons : List (String × Nat) :=
  [("icon_20x20@2x.png", 40),
   ("icon_20x20@3x.png", 60),
   ("icon_29x29@2x.png", 58),
   ("icon_29x29@3x.png", 87),
   ("icon_40x40@2x.png", 80),
   ("icon_40x40@3x.png", 120),
   ("icon_60x60@2x.png", 120),
   ("icon_60x60@3x.png", 180),
   ("icon_20x20.png", 20),
   ("icon_20x20@2x-ipad.png", 40),
   ("icon_29x29.png", 29),
   ("icon_29x29@2x-ipad.png", 58),
   ("icon_40x40.png", 40),
   ("icon_40x40@2x-ipad.png", 80),
   ("icon_76x76.png", 76),
   ("icon_76x76@2x.png", 152),
   ("icon_83.5x83.5@2x.png", 167)]

/-- Path where the full-size placeholder source is saved:
`source_path = os.path.join(output_dir, "icon_1024x1024.png")`. -/
def source_path : String := joinPath output_dir "icon_1024x1024.png"

/-- The whole run of `create_placeholder_icon.py`: synthesize the
placeholder, save it at `source_path`, then run the resize loop over the
manifest using the in-memory image; returns the resulting filesystem and
the console log.  There is no failure path: the run is a total function of
the font environment and the starting filesystem. -/
def run (env : FontEnv) (fs : FileSystem) : FileSystem × List String :=
  let src := placeholderImage env
  (resizeLoop output_dir src icons (writeFile fs source_path src),
   ("Created source icon: " ++ source_path) ::
     resizeLog icons ++ ["\nAll icons generated successfully!"])

end Meetman.CreatePlaceholderIcon

namespace Meetman

theorem readFile_writeFile_self (fs : FileSystem) (p : String) (i : Image) :
    readFile (writeFile fs p i) p = some i := by
  simp [readFile, writeFile]

theorem readFile_writeFile_ne (fs : FileSystem) (p q : String) (i : Image)
    (h : p ≠ q) : readFile (writeFile fs p i) q = readFile fs q := by
  simp [readFile, writeFile, h]

theorem readFile_resizeLoop_not_mem (dir : String) (img : Image)
    (l : List (String × Nat)) (fs : FileSystem) (p : String)
    (hp : ∀ e ∈ l, joinPath dir e.1 ≠ p) :
    readFile (resizeLoop dir img l fs) p = readFile fs p := by
  induction l generalizing fs with
  | nil => rfl
  | cons e rest ih =>
      obtain ⟨n, s⟩ := e
      have h1 : joinPath dir n ≠ p := hp (n, s) (List.mem_cons_self _ _)
      have h2 : ∀ e ∈ rest, joinPath dir e.1 ≠ p :=
        fun e he => hp e (List.mem_cons_of_mem _ he)
      calc readFile (resizeLoop dir img ((n, s) :: rest) fs) p
          = readFile (writeFile fs (joinPath dir n) (resize img s)) p :=
            ih _ h2
        _ = readFile fs p := readFile_writeFile_ne _ _ _ _ h1

theorem readFile_resizeLoop_mem (dir : String) (img : Image)
    (l : List (String × Nat)) (fs : FileSystem) (n : String) (s : Nat)
    (hnd : (l.map fun e => joinPath dir e.1).Nodup)
    (hmem : (n, s) ∈ l) :
    readFile (resizeLoop dir img l fs) (joinPath dir n) = some (resize img s) := by
  induction l generalizing fs with
  | nil => cases hmem
  | cons e rest ih =>
      obtain ⟨m, t⟩ := e
      rw [List.map_cons, List.nodup_cons] at hnd
      rcases List.mem_cons.mp hmem with heq | htail
      · obtain ⟨rfl, rfl⟩ := Prod.mk.injEq .. ▸ heq
        have hnotin : ∀ e ∈ rest, joinPath dir e.1 ≠ joinPath dir n := by
          intro e he hcontra
          exact hnd.1 (hcontra ▸ List.mem_map_of_mem (fun e => joinPath dir e.1) he)
        calc readFile (resizeLoop dir img ((n, s) :: rest) fs) (joinPath dir n)
            = readFile (writeFile fs (joinPath dir n) (resize img s)) (joinPath dir n) :=
              readFile_resizeLoop_not_mem _ _ _ _ _ hnotin
          _ = some (resize img s) := readFile_writeFile_self _ _ _
      · exact ih _ hnd.2 htail

theorem joinPath_right_inj (dir : String) : Function.Injective (joinPath dir) := by
  intro a b h
  have hd := congrArg String.data h
  simp only [joinPath, String.data_append, List.append_assoc] at hd
  exact String.ext (List.append_cancel_left (List.append_cancel_left hd))

theorem joined_nodup (dir : String) (l : List (String × Nat))
    (h : (l.map Prod.fst).Nodup) :
    (l.map fun e => joinPath dir e.1).Nodup := by
  have : (l.map fun e => joinPath dir e.1) = (l.map Prod.fst).map (joinPath dir) := by
    rw [List.map_map]; rfl
  rw [this]
  exact h.map (joinPath_right_inj dir)

theorem boxSum_const (img : Image) (c : RGB) (hc : ∀ a b, img.pix a b = c)
    (x0 x1 y0 y1 : Nat) :
    boxSum img x0 x1 y0 y1 = ((x1 - x0) * (y1 - y0)) • c := by
  unfold boxSum
  have hinner : ∀ dx, (Finset.range (y1 - y0)).sum
      (fun dy => img.pix (x0 + dx) (y0 + dy)) = (y1 - y0) • c := by
    intro dx
    rw [Finset.sum_congr rfl fun dy _ => hc (x0 + dx) (y0 + dy)]
    simp [Finset.sum_const]
  rw [Finset.sum_congr rfl fun dx _ => hinner dx]
  simp [Finset.sum_const, mul_smul]

theorem divRGB_smul (c : RGB) (n : Nat) (hn : 0 < n) : divRGB (n • c) n = c := by
  obtain ⟨r, g, b⟩ := c
  simp [divRGB, Prod.smul_mk, smul_eq_mul, Nat.mul_div_cancel_left _ hn]

theorem box_lo_lt_hi (w s i : Nat) (hs : 0 < s) (hws : s ≤ w) :
    i * w / s + 1 ≤ (i + 1) * w / s := by
  rw [Nat.add_mul, Nat.one_mul]
  rw [Nat.le_div_iff_mul_le hs]
  have h1 : i * w / s * s ≤ i * w := Nat.div_mul_le_self _ _
  have h2 : s ≤ w := hws
  calc (i * w / s + 1) * s = i * w / s * s + s := by ring
    _ ≤ i * w + w := Nat.add_le_add h1 h2

theorem resizePixel_const (img : Image) (c : RGB) (hc : ∀ a b, img.pix a b = c)
    (s i j : Nat) (hs : 0 < s) (hw : s ≤ img.width) (hh : s ≤ img.height) :
    resizePixel img s i j = c := by
  simp only [resizePixel]
  rw [boxSum_const img c hc]
  apply divRGB_smul
  have hx := box_lo_lt_hi img.width s i hs hw
  have hy := box_lo_lt_hi img.height s j hs hh
  have hx2 : 0 < (i + 1) * img.width / s - i * img.width / s := by omega
  have hy2 : 0 < (j + 1) * img.height / s - j * img.height / s := by omega
  exact Nat.mul_pos hx2 hy2

theorem pixelIdentical_refl (a : Image) : PixelIdentical a a :=
  ⟨rfl, rfl, fun _ _ _ _ => rfl⟩

end Meetman

namespace Meetman

theorem box_hi_le (w s i : Nat) (hi : i < s) : (i + 1) * w / s ≤ w := by
  have hs : 0 < s := by omega
  have h1 : (i + 1) * w ≤ s * w := Nat.mul_le_mul_right w hi
  calc (i + 1) * w / s ≤ s * w / s := Nat.div_le_div_right h1
    _ = w := Nat.mul_div_cancel_left w hs

theorem boxSum_congr (img1 img2 : Image) (x0 x1 y0 y1 : Nat)
    (h : ∀ a b, x0 ≤ a → a < x1 → y0 ≤ b → b < y1 → img1.pix a b = img2.pix a b) :
    boxSum img1 x0 x1 y0 y1 = boxSum img2 x0 x1 y0 y1 := by
  unfold boxSum
  refine Finset.sum_congr rfl fun dx hdx => Finset.sum_congr rfl fun dy hdy => ?_
  rw [Finset.mem_range] at hdx hdy
  exact h _ _ (Nat.le_add_right _ _) (by omega) (Nat.le_add_right _ _) (by omega)

/-- Claim C1: for every one of the 17 manifest entries, after a successful
run of the resizer the output file named by the entry's key exists in the
output directory, and the written image's pixel width equals its pixel
height equals that entry's edge length.  Stated for `generate_icons.py`
(whose run succeeds exactly when the source opens) and for the resize loop
of `create_placeholder_icon.py`. -/
theorem outputs_exist_and_square (base_dir : String) (fs : FileSystem) (srcImg : Image)
    (hopen : readFile fs (GenerateIcons.source_icon base_dir) = some srcImg)
    (n : String) (s : Nat) (hmem : (n, s) ∈ GenerateIcons.icons) :
    (∃ log, GenerateIcons.run base_dir fs =
        Except.ok (GenerateIcons.finalFS base_dir fs, log)) ∧
    readFile (GenerateIcons.finalFS base_dir fs)
        (joinPath (GenerateIcons.output_dir base_dir) n) = some (resize srcImg s) ∧
    (resize srcImg s).width = s ∧ (resize srcImg s).height = s ∧
    ∀ env fs2, readFile (CreatePlaceholderIcon.run env fs2).1
        (joinPath CreatePlaceholderIcon.output_dir n)
        = some (resize (CreatePlaceholderIcon.placeholderImage env) s) := by
  have hfinal : GenerateIcons.finalFS base_dir fs =
      resizeLoop (GenerateIcons.output_dir base_dir) srcImg GenerateIcons.icons fs := by
    simp [GenerateIcons.finalFS, GenerateIcons.run, hopen]
  refine ⟨?_, ?_, rfl, rfl, ?_⟩
  · exact ⟨("Loading source icon: " ++ GenerateIcons.source_icon base_dir) ::
      resizeLog GenerateIcons.icons ++ ["\nAll icons generated successfully!"],
      by simp [GenerateIcons.run, hopen, hfinal]⟩
  · rw [hfinal]
    exact readFile_resizeLoop_mem _ _ _ _ _ _
      (joined_nodup _ _ (by decide)) hmem
  · intro env fs2
    exact readFile_resizeLoop_mem _ _ _ _ _ _
      (joined_nodup _ _ (by decide)) hmem

/-- Witness for C1 at a concrete filesystem holding a flat blue source and
the manifest entry ("icon_20x20.png", 20). -/
theorem outputs_exist_and_square_witness :
    readFile (GenerateIcons.finalFS "b"
        [(GenerateIcons.source_icon "b", constImage 1024 iosBlue)])
      (joinPath (GenerateIcons.output_dir "b") "icon_20x20.png")
      = some (resize (constImage 1024 iosBlue) 20) :=
  (outputs_exist_and_square "b"
    [(GenerateIcons.source_icon "b", constImage 1024 iosBlue)]
    (constImage 1024 iosBlue) (by simp [readFile])
    "icon_20x20.png" 20 (by decide)).2.1

/-- Claim C2: the resize step is deterministic — the embedded resize is a
pure function of the source pixels and the target size: two source images
of the same dimensions that agree on every in-bounds pixel resize to
pixel-identical output rasters (which also makes two runs on the same
source produce pixel-identical outputs). -/
theorem resize_deterministic (img1 img2 : Image) (s : Nat)
    (hw : img1.width = img2.width) (hh : img1.height = img2.height)
    (hpix : ∀ a b, a < img1.width → b < img1.height → img1.pix a b = img2.pix a b) :
    PixelIdentical (resize img1 s) (resize img2 s) := by
  refine ⟨rfl, rfl, fun i j hi hj => ?_⟩
  have hi2 : i < s := hi
  have hj2 : j < s := hj
  show resizePixel img1 s i j = resizePixel img2 s i j
  simp only [resizePixel]
  rw [← hw, ← hh]
  have hx1 : (i + 1) * img1.width / s ≤ img1.width := box_hi_le _ _ _ hi2
  have hy1 : (j + 1) * img1.height / s ≤ img1.height := box_hi_le _ _ _ hj2
  rw [boxSum_congr img1 img2 _ _ _ _ (fun a b ha1 ha2 hb1 hb2 =>
    hpix a b (by omega) (by omega))]

/-- Witness for C2 at two (definitionally equal) flat blue sources. -/
theorem resize_deterministic_witness :
    PixelIdentical (resize (constImage 2 iosBlue) 1) (resize (constImage 2 iosBlue) 1) :=
  resize_deterministic _ _ 1 rfl rfl (fun _ _ _ _ => rfl)

/-- Claim C3: if the source image file cannot be opened, the run of
`generate_icons.py` fails immediately with the error propagating to the
process boundary, and the filesystem is untouched — no manifest output is
written, no cleanup, no retry. -/
theorem missing_source_aborts_without_writes (base_dir : String) (fs : FileSystem)
    (h : readFile fs (GenerateIcons.source_icon base_dir) = none) :
    GenerateIcons.run base_dir fs = Except.error () ∧
    GenerateIcons.finalFS base_dir fs = fs := by
  constructor
  · simp [GenerateIcons.run, h]
  · simp [GenerateIcons.finalFS, GenerateIcons.run, h]

/-- Witness for C3 on the empty filesystem, where the source open fails. -/
theorem missing_source_aborts_without_writes_witness :
    GenerateIcons.run "b" [] = Except.error () ∧
    GenerateIcons.finalFS "b" [] = [] :=
  missing_source_aborts_without_writes "b" [] rfl

end Meetman

namespace Meetman

/-- Claim C4: any failure to load the named system font is caught and the
default built-in font is substituted; the placeholder run continues to
completion (the 1024x1024 source file is produced regardless of the font
environment), nothing in the console log reports the substitution (the log
does not depend on the font environment at all); and this fallback is the
only error handling in the system — the resizer's run fails exactly when
the source fails to open, and the placeholder run has no failure case. -/
theorem font_fallback_silent_and_total :
    (∀ f d, selectFont ⟨some f, d⟩ = f) ∧
    (∀ d, selectFont ⟨none, d⟩ = d) ∧
    (∀ env1 env2 fs, (CreatePlaceholderIcon.run env1 fs).2
        = (CreatePlaceholderIcon.run env2 fs).2) ∧
    (∀ env fs, readFile (CreatePlaceholderIcon.run env fs).1
          CreatePlaceholderIcon.source_path
        = some (CreatePlaceholderIcon.placeholderImage env) ∧
      (CreatePlaceholderIcon.placeholderImage env).width = 1024 ∧
      (CreatePlaceholderIcon.placeholderImage env).height = 1024) ∧
    (∀ base_dir fs, (∃ out, GenerateIcons.run base_dir fs = Except.ok out) ↔
      ∃ srcImg, readFile fs (GenerateIcons.source_icon base_dir) = some srcImg) := by
  refine ⟨fun f d => rfl, fun d => rfl, fun env1 env2 fs => rfl, fun env fs => ?_, ?_⟩
  · refine ⟨?_, rfl, rfl⟩
    show readFile (resizeLoop CreatePlaceholderIcon.output_dir
        (CreatePlaceholderIcon.placeholderImage env) CreatePlaceholderIcon.icons
        (writeFile fs CreatePlaceholderIcon.source_path
          (CreatePlaceholderIcon.placeholderImage env)))
      CreatePlaceholderIcon.source_path = _
    rw [readFile_resizeLoop_not_mem _ _ _ _ _ (by decide)]
    exact readFile_writeFile_self _ _ _
  · intro base_dir fs
    constructor
    · rintro ⟨out, hout⟩
      cases hread : readFile fs (GenerateIcons.source_icon base_dir) with
      | none => simp [GenerateIcons.run, hread] at hout
      | some srcImg => exact ⟨srcImg, rfl⟩
    · rintro ⟨srcImg, hread⟩
      exact ⟨(resizeLoop (GenerateIcons.output_dir base_dir) srcImg GenerateIcons.icons fs,
          ("Loading source icon: " ++ GenerateIcons.source_icon base_dir) ::
            resizeLog GenerateIcons.icons ++ ["\nAll icons generated successfully!"]),
        by simp [GenerateIcons.run, hread]⟩

/-- Claim C5: the rendered "MC" label is centered.  With
`x = (1024 - text_width) // 2 - bbox[0]` the drawn label's bounding box
occupies `[x + bbox[0], x + bbox[2]]` horizontally, so the sum of its left
and right edges is twice its horizontal center; that sum differs from
1024 (twice the canvas center 512) by at most one, i.e. the center is
within half a pixel of the canvas center, and likewise vertically. -/
theorem text_centering_within_one_pixel (bbox : Int × Int × Int × Int) :
    ((CreatePlaceholderIcon.x bbox + bbox.1)
        + (CreatePlaceholderIcon.x bbox + bbox.2.2.1) - 1024).natAbs ≤ 1 ∧
    ((CreatePlaceholderIcon.y bbox + bbox.2.1)
        + (CreatePlaceholderIcon.y bbox + bbox.2.2.2) - 1024).natAbs ≤ 1 := by
  constructor
  · simp only [CreatePlaceholderIcon.x, CreatePlaceholderIcon.text_width,
      CreatePlaceholderIcon.size]
    rw [Int.fdiv_eq_ediv _ (by norm_num)]
    omega
  · simp only [CreatePlaceholderIcon.y, CreatePlaceholderIcon.text_height,
      CreatePlaceholderIcon.size]
    rw [Int.fdiv_eq_ediv _ (by norm_num)]
    omega

/-- Claim C6: the manifest invariant holds — the 17 keys are pairwise
distinct filenames in both scripts, and every target edge length is a
positive integer at most the 1024-pixel source edge, so every resize is a
downscale or identity. -/
theorem manifest_invariant :
    (GenerateIcons.icons.map Prod.fst).Nodup ∧
    GenerateIcons.icons.length = 17 ∧
    (CreatePlaceholderIcon.icons.map Prod.fst).Nodup ∧
    ∀ e ∈ GenerateIcons.icons, 0 < e.2 ∧ e.2 ≤ CreatePlaceholderIcon.size :=
  ⟨by decide, by decide, by decide, by decide⟩

/-- Witness for C6 at the manifest entry ("icon_20x20@2x.png", 40). -/
theorem manifest_invariant_witness :
    0 < (40 : Nat) ∧ (40 : Nat) ≤ CreatePlaceholderIcon.size :=
  manifest_invariant.2.2.2 ("icon_20x20@2x.png", 40) (by decide)

/-- Claim C7: the two scripts hardcode the same manifest — identical keys,
values and iteration order — so on the same in-memory source image and
output directory their resize loops perform identical writes and produce
identical filesystems. -/
theorem manifests_identical :
    GenerateIcons.icons = CreatePlaceholderIcon.icons ∧
    ∀ dir img fs, resizeLoop dir img GenerateIcons.icons fs
        = resizeLoop dir img CreatePlaceholderIcon.icons fs :=
  ⟨rfl, fun _ _ _ => rfl⟩

end Meetman

namespace Meetman

/-- Claim C8: resizing a uniform (solid-color) square source preserves its
color.  ("icon_60x60@3x.png", 180) is a manifest entry; resizing a
1024x1024 image whose every pixel is the fixed color `c` to edge 180 gives
a 180x180 raster whose every pixel — and hence whose average color — is
exactly `c` (the normalized resample of a flat image is flat). -/
theorem resize_preserves_flat_color (c : RGB) :
    ("icon_60x60@3x.png", 180) ∈ GenerateIcons.icons ∧
    (resize (constImage 1024 c) 180).width = 180 ∧
    (resize (constImage 1024 c) 180).height = 180 ∧
    (∀ a b, (resize (constImage 1024 c) 180).pix a b = c) ∧
    averageColor (resize (constImage 1024 c) 180) = c := by
  have hpix : ∀ a b, (resize (constImage 1024 c) 180).pix a b = c := by
    intro a b
    exact resizePixel_const (constImage 1024 c) c (fun _ _ => rfl) 180 a b
      (by norm_num) (by norm_num [constImage]) (by norm_num [constImage])
  refine ⟨by decide, rfl, rfl, hpix, ?_⟩
  unfold averageColor
  rw [boxSum_const _ c hpix]
  show divRGB (((180 - 0) * (180 - 0)) • c) (180 * 180) = c
  norm_num
  exact divRGB_smul c (180 * 180) (by norm_num)

/-- Claim C9: the synthesized placeholder source canvas is square with edge
length exactly 1024, and before any text is drawn every pixel has the one
constant background color; drawing the text does not change the
dimensions. -/
theorem placeholder_square_uniform_background :
    CreatePlaceholderIcon.img.width = 1024 ∧
    CreatePlaceholderIcon.img.height = 1024 ∧
    (∀ a b, CreatePlaceholderIcon.img.pix a b = iosBlue) ∧
    ∀ env, (CreatePlaceholderIcon.placeholderImage env).width = 1024 ∧
      (CreatePlaceholderIcon.placeholderImage env).height = 1024 :=
  ⟨rfl, rfl, fun _ _ => rfl, fun _ => ⟨rfl, rfl⟩⟩

/-- Claim C10: several manifest entries share an edge length (40 three
times; 58, 80 and 120 twice each), and any two entries with equal edge
lengths receive pixel-identical rasters from the resize loop, since each
output depends only on the shared source image and the target size. -/
theorem duplicate_sizes_identical_rasters (dir : String) (img : Image)
    (fs : FileSystem) (n1 n2 : String) (s : Nat)
    (h1 : (n1, s) ∈ GenerateIcons.icons) (h2 : (n2, s) ∈ GenerateIcons.icons) :
    ((GenerateIcons.icons.map Prod.snd).count 40 = 3 ∧
     (GenerateIcons.icons.map Prod.snd).count 58 = 2 ∧
     (GenerateIcons.icons.map Prod.snd).count 80 = 2 ∧
     (GenerateIcons.icons.map Prod.snd).count 120 = 2) ∧
    readFile (resizeLoop dir img GenerateIcons.icons fs) (joinPath dir n1)
      = some (resize img s) ∧
    readFile (resizeLoop dir img GenerateIcons.icons fs) (joinPath dir n2)
      = some (resize img s) ∧
    PixelIdentical (resize img s) (resize img s) := by
  refine ⟨by decide, ?_, ?_, pixelIdentical_refl _⟩
  · exact readFile_resizeLoop_mem _ _ _ _ _ _ (joined_nodup _ _ (by decide)) h1
  · exact readFile_resizeLoop_mem _ _ _ _ _ _ (joined_nodup _ _ (by decide)) h2

/-- Witness for C10 at the two distinct manifest entries of edge 40,
("icon_20x20@2x.png", 40) and ("icon_40x40.png", 40). -/
theorem duplicate_sizes_identical_rasters_witness :
    readFile (resizeLoop "d" (constImage 4 iosBlue) GenerateIcons.icons [])
        (joinPath "d" "icon_20x20@2x.png") = some (resize (constImage 4 iosBlue) 40) :=
  (duplicate_sizes_identical_rasters "d" (constImage 4 iosBlue) []
    "icon_20x20@2x.png" "icon_40x40.png" 40 (by decide) (by decide)).2.1

end Meetman
